import Mathlib

/-!
Shallow embedding of the `convertable` Rust library (src/src/lib.rs).

The library defines four conversion traits and three blanket impls
(derivation rules).  Each trait is embedded as a structure whose single
field is the trait's operation; the associated `Error` type of the
fallible traits is a `Type`-valued field.  Each blanket impl becomes a
function from an implementation of the premise trait to an
implementation of the derived trait.  Rust's `Result<T, E>` is embedded
as an inductive with constructors `Ok` and `Err`, and
`core::convert::Infallible` as an inductive with no constructors.
-/

/-- Rust `Result<T, E>` (`Ok(T)` / `Err(E)`). -/
inductive Result (T E : Type) where
  | Ok : T → Result T E
  | Err : E → Result T E
deriving DecidableEq, Repr

/-- Rust `core::convert::Infallible`: an enum with no variants. -/
inductive Infallible : Type

/-- `trait ConvertFrom<T>: Sized { fn convert_from(value: T) -> Self; }`
An implementation of `ConvertFrom<T> for Self` (lib.rs lines 5–8). -/
structure ConvertFrom (T Self : Type) where
  convert_from : T → Self

/-- `trait ConvertInto<T>: Sized { fn convert_into(self) -> T; }`
An implementation of `ConvertInto<T> for Self` (lib.rs lines 10–13). -/
structure ConvertInto (T Self : Type) where
  convert_into : Self → T

/-- `trait TryConvertFrom<T>: Sized { type Error; fn try_convert_from(value: T) -> Result<Self, Self::Error>; }`
(lib.rs lines 15–19); the associated error type is the field `Error`. -/
structure TryConvertFrom (T Self : Type) where
  Error : Type
  try_convert_from : T → Result Self Error

/-- `trait TryConvertInto<T>: Sized { type Error; fn try_convert_into(self) -> Result<T, Self::Error>; }`
(lib.rs lines 21–25). -/
structure TryConvertInto (T Self : Type) where
  Error : Type
  try_convert_into : Self → Result T Error

/-- Derivation rule 1 (lib.rs lines 28–35):
`impl<T, U> ConvertInto<U> for T where U: ConvertFrom<T>`,
with body `fn convert_into(self) -> U { U::convert_from(self) }`. -/
def convertFromImpliesConvertInto {T U : Type} (h : ConvertFrom T U) :
    ConvertInto U T where
  convert_into := fun self => h.convert_from self

/-- Derivation rule 2 (lib.rs lines 38–47):
`impl<T, U> TryConvertInto<U> for T where U: TryConvertFrom<T>`,
with `type Error = U::Error` and body
`fn try_convert_into(self) -> Result<U, Self::Error> { U::try_convert_from(self) }`. -/
def tryConvertFromImpliesTryConvertInto {T U : Type} (h : TryConvertFrom T U) :
    TryConvertInto U T where
  Error := h.Error
  try_convert_into := fun self => h.try_convert_from self

/-- Derivation rule 3 (lib.rs lines 50–59):
`impl<T, U> TryConvertFrom<U> for T where U: ConvertInto<T>`,
with `type Error = Infallible` and body
`fn try_convert_from(value: U) -> Result<Self, Self::Error> { Ok(U::convert_into(value)) }`. -/
def convertIntoImpliesTryConvertFrom {T U : Type} (h : ConvertInto T U) :
    TryConvertFrom U T where
  Error := Infallible
  try_convert_from := fun value => Result.Ok (h.convert_into value)

/-- Test struct `A(u8)` (lib.rs line 68); the `u8` payload is modelled as a
`Nat` since no arithmetic is ever performed on it. -/
structure A where
  val : Nat
deriving DecidableEq, Repr

/-- Test struct `B(u8)` (lib.rs line 70). -/
structure B where
  val : Nat
deriving DecidableEq, Repr

/-- Test struct `C<T>(T)` (lib.rs line 72), a single-field wrapper. -/
structure C (T : Type) where
  val : T
deriving DecidableEq, Repr

/-- Std trait `Into<U> for Self` as used by the `convert_container` test
(lib.rs lines 140–144): a single infallible operation `Self → U`. -/
structure Into (U Self : Type) where
  into : Self → U

/-- Std trait `TryInto<U> for Self` with associated `Error`, as used by the
`try_convert_container` test (lib.rs lines 157–162). -/
structure TryInto (U Self : Type) where
  Error : Type
  try_into : Self → Result U Error

/-- `impl<T: Into<U>, U> ConvertFrom<C<T>> for C<U>` from the
`convert_container` test (lib.rs lines 145–149), with body
`fn convert_from(value: C<T>) -> Self { Self(value.0.into()) }`. -/
def convert_container {T U : Type} (h : Into U T) :
    ConvertFrom (C T) (C U) where
  convert_from := fun value => ⟨h.into value.val⟩

/-- `impl<T: TryInto<U, Error = E>, U, E> TryConvertFrom<C<T>> for C<U>` from
the `try_convert_container` test (lib.rs lines 163–168), with body
`fn try_convert_from(value: C<T>) -> Result<Self, Self::Error> { Ok(Self(value.0.try_into()?)) }`;
the `?` operator returns an inner `Err` unchanged. -/
def try_convert_container {T U : Type} (h : TryInto U T) :
    TryConvertFrom (C T) (C U) where
  Error := h.Error
  try_convert_from := fun value =>
    match h.try_into value.val with
    | Result.Ok u => Result.Ok ⟨u⟩
    | Result.Err e => Result.Err e

/-- The manual `impl ConvertFrom<A> for B` of the
`convert_from_implies_convert_into` test (lib.rs lines 79–83):
`fn convert_from(value: A) -> Self { Self(value.0) }`. -/
def manualConvertFromAB : ConvertFrom A B where
  convert_from := fun value => ⟨value.val⟩

/-- The manual `impl TryConvertFrom<A> for B` of the
`try_convert_from_implies_try_convert_into` test (lib.rs lines 91–97):
`type Error = ()` and `fn try_convert_from(value) { Ok(Self(value.0)) }`. -/
def manualTryConvertFromAB : TryConvertFrom A B where
  Error := Unit
  try_convert_from := fun value => Result.Ok ⟨value.val⟩

/-- A fallible manual implementation used to exercise the error path of
derivation rule 2: it fails with `()` on every input. -/
def failingTryConvertFromAB : TryConvertFrom A B where
  Error := Unit
  try_convert_from := fun _ => Result.Err ()

/-- A partial `TryInto<B> for A` used to exercise both branches of the
container conversion: it fails with `()` on payload `0` and succeeds
otherwise. -/
def checkedTryIntoAB : TryInto B A where
  Error := Unit
  try_into := fun a => if a.val == 0 then Result.Err () else Result.Ok ⟨a.val⟩

/-- The four conversion capabilities of the library, as nodes of the
type-level capability graph described by the spec. -/
inductive Capability where
  | convertFrom
  | convertInto
  | tryConvertFrom
  | tryConvertInto
deriving DecidableEq, Repr, Fintype

/-- The three derivation edges, transcribed from the three blanket impls
(lib.rs lines 28–59): `ConvertFrom` implies `ConvertInto`,
`TryConvertFrom` implies `TryConvertInto`, `ConvertInto` implies
`TryConvertFrom`; nothing is derived from `TryConvertInto`. -/
def deriveEdge : Capability → Option Capability
  | Capability.convertFrom => some Capability.convertInto
  | Capability.tryConvertFrom => some Capability.tryConvertInto
  | Capability.convertInto => some Capability.tryConvertFrom
  | Capability.tryConvertInto => none

/-- The capabilities reachable from a manual implementation by chaining
derivation edges, bounded by the number of capabilities. -/
def derivationChainAux : Nat → Capability → List Capability
  | 0, _ => []
  | n + 1, c =>
    match deriveEdge c with
    | none => []
    | some d => d :: derivationChainAux n d

/-- A manual implementation of a capability together with everything the
derivation rules produce from it. -/
def derivationChain (c : Capability) : List Capability :=
  c :: derivationChainAux 4 c

/-- C1: Duality of the infallible pair — for every manual implementation of
`ConvertFrom<A> for B` and every value `a : A`, the derived
`a.convert_into()` (rule 1) returns exactly `B::convert_from(a)`. -/
theorem convert_into_eq_convert_from (T U : Type) (h : ConvertFrom T U) (a : T) :
    (convertFromImpliesConvertInto h).convert_into a = h.convert_from a :=
  rfl

/-- C2: Duality of the fallible pair — for every manual implementation of
`TryConvertFrom<A> for B` with error type `E`, the derived capability's
error type is exactly `E`, the derived `a.try_convert_into()` returns
exactly the same `Result` as `B::try_convert_from(a)`, and whenever the
manual conversion returns an error `e` the derived operation returns that
identical error value unchanged. -/
theorem try_convert_into_eq_try_convert_from (T U : Type) (h : TryConvertFrom T U) (a : T) :
    (tryConvertFromImpliesTryConvertInto h).Error = h.Error ∧
    (tryConvertFromImpliesTryConvertInto h).try_convert_into a = h.try_convert_from a ∧
    ∀ e : h.Error, h.try_convert_from a = Result.Err e →
      (tryConvertFromImpliesTryConvertInto h).try_convert_into a = Result.Err e :=
  ⟨rfl, rfl, fun _ he => he⟩

/-- C2 witness: on the always-failing manual implementation, the derived
`try_convert_into` on `A(1)` returns the manual error `()` unchanged. -/
theorem try_convert_into_eq_try_convert_from_witness :
    (tryConvertFromImpliesTryConvertInto failingTryConvertFromAB).try_convert_into ⟨1⟩ =
      Result.Err () :=
  (try_convert_into_eq_try_convert_from A B failingTryConvertFromAB ⟨1⟩).2.2 () rfl

/-- C3: Bridge totality — for all `A`, `B` with `A: ConvertInto<B>`, the
derived `B::try_convert_from(a)` (rule 3) has error type `Infallible`,
always returns `Ok` of exactly `a.convert_into()`, never returns a failure
value, and `Infallible` is uninhabited. -/
theorem bridge_try_convert_from_total (T U : Type) (h : ConvertInto T U) (a : U) :
    (convertIntoImpliesTryConvertFrom h).Error = Infallible ∧
    (convertIntoImpliesTryConvertFrom h).try_convert_from a = Result.Ok (h.convert_into a) ∧
    (∀ e : Infallible,
      (convertIntoImpliesTryConvertFrom h).try_convert_from a ≠ Result.Err e) ∧
    IsEmpty Infallible := by
  refine ⟨rfl, rfl, ?_, ⟨fun e => nomatch e⟩⟩
  intro e
  exact nomatch e

/-- C3 witness: the bridge applied to the rule‑1 derivation of the concrete
`ConvertFrom<A> for B` succeeds with `B(1)` on `A(1)` and is not an error. -/
theorem bridge_try_convert_from_total_witness :
    (convertIntoImpliesTryConvertFrom
        (convertFromImpliesConvertInto manualConvertFromAB)).try_convert_from (A.mk 1) =
      Result.Ok (B.mk 1) ∧
    ∀ e, (convertIntoImpliesTryConvertFrom
        (convertFromImpliesConvertInto manualConvertFromAB)).try_convert_from (A.mk 1) ≠
      Result.Err e :=
  ⟨(bridge_try_convert_from_total B A
      (convertFromImpliesConvertInto manualConvertFromAB) (A.mk 1)).2.1,
   (bridge_try_convert_from_total B A
      (convertFromImpliesConvertInto manualConvertFromAB) (A.mk 1)).2.2.1⟩

/-- C4: Fallible composability through the single-field container — given
`A` fallibly convertible into `B` with error `E`, `C<A>` is fallibly
convertible into `C<B>` with error type exactly `E`; `try_convert_from`
returns the identical inner error whenever the inner conversion fails, and
otherwise `Ok` wrapping `C` of the converted inner value. -/
theorem try_convert_container_correct (T U : Type) (h : TryInto U T) (a : T) :
    (try_convert_container h).Error = h.Error ∧
    (∀ e, h.try_into a = Result.Err e →
      (try_convert_container h).try_convert_from ⟨a⟩ = Result.Err e) ∧
    (∀ b, h.try_into a = Result.Ok b →
      (try_convert_container h).try_convert_from ⟨a⟩ = Result.Ok ⟨b⟩) := by
  refine ⟨rfl, ?_, ?_⟩
  · intro e he
    simp only [try_convert_container, he]
  · intro b hb
    simp only [try_convert_container, hb]

/-- C4 witness: on the partial `TryInto<B> for A`, the container conversion
fails with the inner error `()` on `C(A(0))` and succeeds with `C(B(1))` on
`C(A(1))`. -/
theorem try_convert_container_correct_witness :
    (try_convert_container checkedTryIntoAB).try_convert_from ⟨A.mk 0⟩ = Result.Err () ∧
    (try_convert_container checkedTryIntoAB).try_convert_from ⟨A.mk 1⟩ =
      Result.Ok ⟨B.mk 1⟩ :=
  ⟨(try_convert_container_correct A B checkedTryIntoAB (A.mk 0)).2.1 () rfl,
   (try_convert_container_correct A B checkedTryIntoAB (A.mk 1)).2.2 (B.mk 1) rfl⟩

/-- C5: Infallible composability through the single-field container — given
`A` convertible into `B`, `C::convert_from(C(a))` equals `C` applied to the
independently converted inner value. -/
theorem convert_container_correct (T U : Type) (h : Into U T) (a : T) :
    (convert_container h).convert_from ⟨a⟩ = ⟨h.into a⟩ :=
  rfl

/-- C6: Concrete infallible scenario — with the manual
`impl ConvertFrom<A> for B` as `B(value.0)`, the derived
`A(1).convert_into()` equals `B(1)`, and chaining rules 1 and 3 the derived
`B::try_convert_from(A(1))` equals `Ok(B(1))` with error type the
uninhabited `Infallible`. -/
theorem concrete_infallible_scenario :
    (convertFromImpliesConvertInto manualConvertFromAB).convert_into (A.mk 1) = B.mk 1 ∧
    (convertIntoImpliesTryConvertFrom
        (convertFromImpliesConvertInto manualConvertFromAB)).try_convert_from (A.mk 1) =
      Result.Ok (B.mk 1) ∧
    (convertIntoImpliesTryConvertFrom
        (convertFromImpliesConvertInto manualConvertFromAB)).Error = Infallible ∧
    IsEmpty Infallible :=
  ⟨rfl, rfl, rfl, ⟨fun e => nomatch e⟩⟩

/-- C7: Concrete fallible scenario — with the manual
`impl TryConvertFrom<A> for B` of error type `()` always succeeding with
`B(value.0)`, the derived `A(1).try_convert_into()` equals `Ok(B(1))`. -/
theorem concrete_fallible_scenario :
    (tryConvertFromImpliesTryConvertInto manualTryConvertFromAB).try_convert_into (A.mk 1) =
      Result.Ok (B.mk 1) :=
  rfl

/-- C8: Coherence of the derivation rules — no two derivation edges produce
the same capability (the edge map is injective on its defined outputs), no
edge reproduces its own input capability, and chaining the rules from any
single manual implementation visits each capability at most once, so the
three derivation rules never produce two candidate implementations of the
same capability for the same type pair. -/
theorem derivation_rules_coherent :
    (∀ c₁ c₂ k : Capability, deriveEdge c₁ = some k → deriveEdge c₂ = some k → c₁ = c₂) ∧
    (∀ c k : Capability, deriveEdge c = some k → c ≠ k) ∧
    (∀ c : Capability, (derivationChain c).Nodup) := by
  decide

/-- C9: One manual `ConvertFrom<A> for B` yields all four capabilities by
chaining the three derivation rules, and all four operations agree: the
derived `convert_into`, the bridged `try_convert_from` and the derived
`try_convert_into` all compute `B::convert_from(a)` (the fallible ones
wrapped in `Ok`), with error type `Infallible` on both fallible
capabilities. -/
theorem manual_convert_from_yields_all_four (T U : Type) (h : ConvertFrom T U) (a : T) :
    (convertFromImpliesConvertInto h).convert_into a = h.convert_from a ∧
    (convertIntoImpliesTryConvertFrom
        (convertFromImpliesConvertInto h)).try_convert_from a =
      Result.Ok (h.convert_from a) ∧
    (convertIntoImpliesTryConvertFrom (convertFromImpliesConvertInto h)).Error = Infallible ∧
    (tryConvertFromImpliesTryConvertInto (convertIntoImpliesTryConvertFrom
        (convertFromImpliesConvertInto h))).try_convert_into a =
      Result.Ok (h.convert_from a) ∧
    (tryConvertFromImpliesTryConvertInto (convertIntoImpliesTryConvertFrom
        (convertFromImpliesConvertInto h))).Error = Infallible :=
  ⟨rfl, rfl, rfl, rfl, rfl⟩

/-- C10: Each derived operation is a pure one-call forwarder — it equals the
underlying manual conversion applied once to its argument (the bridge
additionally wraps the result in `Ok`) — and each derived operation is
deterministic: equal inputs yield equal outputs. -/
theorem derived_ops_forward_and_deterministic (T U V W : Type)
    (hf : ConvertFrom T U) (ht : TryConvertFrom T U) (hi : ConvertInto V W) :
    (∀ a : T, (convertFromImpliesConvertInto hf).convert_into a = hf.convert_from a) ∧
    (∀ a : T, (tryConvertFromImpliesTryConvertInto ht).try_convert_into a =
      ht.try_convert_from a) ∧
    (∀ a : W, (convertIntoImpliesTryConvertFrom hi).try_convert_from a =
      Result.Ok (hi.convert_into a)) ∧
    (∀ a₁ a₂ : T, a₁ = a₂ →
      (convertFromImpliesConvertInto hf).convert_into a₁ =
        (convertFromImpliesConvertInto hf).convert_into a₂) ∧
    (∀ a₁ a₂ : T, a₁ = a₂ →
      (tryConvertFromImpliesTryConvertInto ht).try_convert_into a₁ =
        (tryConvertFromImpliesTryConvertInto ht).try_convert_into a₂) ∧
    (∀ a₁ a₂ : W, a₁ = a₂ →
      (convertIntoImpliesTryConvertFrom hi).try_convert_from a₁ =
        (convertIntoImpliesTryConvertFrom hi).try_convert_from a₂) :=
  ⟨fun _ => rfl, fun _ => rfl, fun _ => rfl,
   fun _ _ he => congrArg _ he, fun _ _ he => congrArg _ he, fun _ _ he => congrArg _ he⟩

/-- C10 witness: the forwarding equations and determinism at concrete
inputs for the concrete manual implementations. -/
theorem derived_ops_forward_and_deterministic_witness :
    (convertFromImpliesConvertInto manualConvertFromAB).convert_into (A.mk 2) =
      manualConvertFromAB.convert_from (A.mk 2) ∧
    (tryConvertFromImpliesTryConvertInto manualTryConvertFromAB).try_convert_into (A.mk 2) =
      manualTryConvertFromAB.try_convert_from (A.mk 2) ∧
    (convertFromImpliesConvertInto manualConvertFromAB).convert_into (A.mk 2) =
      (convertFromImpliesConvertInto manualConvertFromAB).convert_into (A.mk 2) :=
  ⟨(derived_ops_forward_and_deterministic A B B A manualConvertFromAB manualTryConvertFromAB
      (convertFromImpliesConvertInto manualConvertFromAB)).1 (A.mk 2),
   (derived_ops_forward_and_deterministic A B B A manualConvertFromAB manualTryConvertFromAB
      (convertFromImpliesConvertInto manualConvertFromAB)).2.1 (A.mk 2),
   (derived_ops_forward_and_deterministic A B B A manualConvertFromAB manualTryConvertFromAB
      (convertFromImpliesConvertInto manualConvertFromAB)).2.2.2.1 (A.mk 2) (A.mk 2) rfl⟩
